import Mathlib

/-!
# Verification of the crypto-dashboard orchestration pipeline

A shallow embedding of `backend/llm_graph.py` (the LangGraph pipeline:
formatting nodes, router, and the three narrative generators) and of the
error-handling skeleton of `backend/main.py` (the FastAPI endpoints),
together with theorems settling the frozen claims about them.

Modelling conventions:
* Python floats that only flow into f-strings are modelled as `ℚ` with an
  explicit rendering function (`floatStr`, `fmt2`); no arithmetic is ever
  performed on them in the embedded code.
* The mutable `AgentState` TypedDict is a record; keys that may be absent
  (`chart_text`, `news_text`, `context_text`, `answer`) are `Option String`
  and a Python `KeyError` on a missing key becomes `Except.error`.
* The LLM capability is an oracle `LLM : String → String → String`
  (system message, user prompt ↦ completion).
* Each graph node returns, besides the updated state, the list of state
  fields it assigned and the list of LLM calls it made, so that claims
  about side effects and call traces can be stated.
-/

namespace CryptoDash

/-- A chart point, Python dict with keys date and price. -/
structure ChartPoint where
  date : String
  price : ℚ
deriving DecidableEq

/-- The four numeric indicators, Python dict with exactly these keys as used
by every caller in `main.py`. -/
structure Indicators where
  start_price : ℚ
  end_price : ℚ
  return_pct : ℚ
  max_drawdown_pct : ℚ
deriving DecidableEq

/-- A news record as consumed by `fetch_news` (keys published_at, title,
snippet, url). -/
structure NewsItem where
  published_at : String
  title : String
  snippet : String
  url : String
deriving DecidableEq

/-- A background document as consumed by `build_context`.  The providers in
`asset_history_rag.py` also attach a `content` key, which may therefore be
present on the dict; `build_context` itself only reads the other four keys. -/
structure Doc where
  title : String
  snippet : String
  url : String
  published_at : String
  content : Option String := none
deriving DecidableEq

/-- The graph state (`AgentState` TypedDict in `llm_graph.py`).  Input fields
are always present (every caller in `main.py` populates them via
`_empty_state`); the derived text fields start absent. -/
structure AgentState where
  mode : String
  symbol : String
  start_date : String
  end_date : String
  indicators : Indicators
  chart : List ChartPoint
  news : List NewsItem
  docs : List Doc
  question : String
  chart_text : Option String := none
  news_text : Option String := none
  context_text : Option String := none
  answer : Option String := none
deriving DecidableEq

/-- Tags for the derived state fields a node may assign. -/
inductive Field where
  | chart_text
  | news_text
  | context_text
  | answer
deriving DecidableEq

/-- One request/response exchange with the language-model capability. -/
structure LLMCall where
  system : String
  user : String
deriving DecidableEq

/-- The language-model capability: system message and user prompt to
completion text. -/
def LLM : Type := String → String → String

/-- Result of one graph node: updated state, fields assigned, LLM calls made. -/
structure NodeOut where
  state : AgentState
  writes : List Field
  calls : List LLMCall
deriving DecidableEq

/-- Rendering of a Python float that is interpolated into an f-string
(`str(x)`); exact decimal value, `num/den` form for non-integers. -/
def floatStr (q : ℚ) : String :=
  if q.den = 1 then toString q.num else toString q.num ++ "/" ++ toString q.den

/-- Rendering of `f"{x:.2f}"`: the value rounded to hundredths with exactly
two digits after the decimal point. -/
def fmt2 (q : ℚ) : String :=
  let cents : Int := Int.floor (q * 100 + 1 / 2)
  let sign := if cents < 0 then "-" else ""
  let a := cents.natAbs
  sign ++ toString (a / 100) ++ "." ++ (if a % 100 < 10 then "0" else "") ++ toString (a % 100)

/-- Python extended slice `l[::step]` for a positive step: the elements at
indices `0, step, 2*step, …` in order. -/
def sliceEvery (step : ℕ) (l : List α) : List α :=
  match l with
  | [] => []
  | x :: xs => x :: sliceEvery step (xs.drop (step - 1))
termination_by l.length
decreasing_by simp [List.length_drop]; omega

theorem sliceEvery_nil (step : ℕ) : sliceEvery step ([] : List α) = [] := by
  simp [sliceEvery]

theorem sliceEvery_cons (step : ℕ) (x : α) (xs : List α) :
    sliceEvery step (x :: xs) = x :: sliceEvery step (xs.drop (step - 1)) := by
  simp [sliceEvery]

theorem sliceEvery_one (l : List α) : sliceEvery 1 l = l := by
  induction l with
  | nil => simp [sliceEvery]
  | cons x xs ih => rw [sliceEvery_cons]; simpa using ih

/-- Auxiliary, fuel-indexed form of the length formula for `sliceEvery`. -/
theorem sliceEvery_length_aux (step : ℕ) (hs : 1 ≤ step) :
    ∀ (n : ℕ) (l : List α), l.length ≤ n →
      (sliceEvery step l).length = (l.length + step - 1) / step := by
  intro n
  induction n with
  | zero =>
    intro l hl
    have : l = [] := List.length_eq_zero.mp (Nat.le_zero.mp hl)
    subst this
    simp [sliceEvery_nil, Nat.div_eq_of_lt (by omega : step - 1 < step)]
  | succ n ih =>
    intro l hl
    match l with
    | [] => simp [sliceEvery_nil, Nat.div_eq_of_lt (by omega : step - 1 < step)]
    | x :: xs =>
      rw [sliceEvery_cons]
      have hdrop : (xs.drop (step - 1)).length = xs.length - (step - 1) := by
        simp [List.length_drop]
      have hle : (xs.drop (step - 1)).length ≤ n := by
        rw [hdrop]
        have : xs.length ≤ n := by simpa using Nat.succ_le_succ_iff.mp (by simpa using hl)
        omega
      have hrec := ih (xs.drop (step - 1)) hle
      simp only [List.length_cons]
      rw [hrec, hdrop]
      have e2 : xs.length + 1 + step - 1 = xs.length + step := by omega
      rw [e2, Nat.add_div_right xs.length (by omega)]
      rcases le_or_lt (step - 1) xs.length with hge | hlt
      · have e1 : xs.length - (step - 1) + step - 1 = xs.length := by omega
        rw [e1]
      · have e1 : xs.length - (step - 1) + step - 1 = step - 1 := by omega
        rw [e1, Nat.div_eq_of_lt (by omega : step - 1 < step),
          Nat.div_eq_of_lt (by omega : xs.length < step)]

/-- Length of a stride sample: `⌈L / step⌉` elements. -/
theorem sliceEvery_length (step : ℕ) (hs : 1 ≤ step) (l : List α) :
    (sliceEvery step l).length = (l.length + step - 1) / step :=
  sliceEvery_length_aux step hs l.length l le_rfl

/-- Auxiliary, fuel-indexed form of the index formula for `sliceEvery`. -/
theorem sliceEvery_getElem?_aux (step : ℕ) (hs : 1 ≤ step) :
    ∀ (n : ℕ) (l : List α), l.length ≤ n → ∀ (k : ℕ),
      (sliceEvery step l)[k]? = l[k * step]? := by
  intro n
  induction n with
  | zero =>
    intro l hl k
    have : l = [] := List.length_eq_zero.mp (Nat.le_zero.mp hl)
    subst this
    simp [sliceEvery_nil]
  | succ n ih =>
    intro l hl k
    match l with
    | [] => simp [sliceEvery_nil]
    | x :: xs =>
      rw [sliceEvery_cons]
      match k with
      | 0 => simp
      | k + 1 =>
        have hle : (xs.drop (step - 1)).length ≤ n := by
          simp only [List.length_drop]
          have : xs.length ≤ n := by simpa using Nat.succ_le_succ_iff.mp (by simpa using hl)
          omega
        have hrec := ih (xs.drop (step - 1)) hle k
        have hdropIdx : (xs.drop (step - 1))[k * step]? = xs[(step - 1) + k * step]? := by
          simp [List.getElem?_drop]
        have hidx : (k + 1) * step = ((step - 1) + k * step) + 1 := by
          have : (k + 1) * step = k * step + step := by ring
          omega
        simp only [List.getElem?_cons_succ, hrec, hdropIdx, hidx]

/-- A stride sample holds exactly the points of the input at indices
`0, step, 2*step, …`, in order. -/
theorem sliceEvery_getElem? (step : ℕ) (hs : 1 ≤ step) (l : List α) (k : ℕ) :
    (sliceEvery step l)[k]? = l[k * step]? :=
  sliceEvery_getElem?_aux step hs l.length l le_rfl k

/-- One rendered line of the compressed chart:
`f'{i["date"]}: {i["price"]:.2f} \n'`. -/
def chartLine (p : ChartPoint) : String :=
  p.date ++ ": " ++ fmt2 p.price ++ " \n"

/-- The stride used by `chart_compression`: `math.ceil(len(chart)/20)` when
the chart has more than 20 points, otherwise no sampling. -/
def sampleStep (L : ℕ) : ℕ :=
  if 20 < L then (L + 19) / 20 else 1

/-- Node `chart_compression`: stride-samples charts longer than 20 points and
renders each kept point as one line; on an empty chart it only prints a
warning and returns the state unchanged (no `chart_text` is assigned). -/
def chart_compression (s : AgentState) : NodeOut :=
  if s.chart = [] then ⟨s, [], []⟩
  else
    let chart := if 20 < s.chart.length then
        sliceEvery ((s.chart.length + 19) / 20) s.chart
      else s.chart
    ⟨{ s with chart_text := some (String.join (chart.map chartLine)) },
      [Field.chart_text], []⟩

/-- One rendered news entry of `fetch_news`. -/
def newsEntry (i : NewsItem) : String :=
  "published at: " ++ i.published_at ++ " \n " ++
  "title: " ++ i.title ++ " \n" ++
  "snippet: " ++ i.snippet ++ " \n" ++
  "URL: " ++ i.url ++ " \n"

/-- Node `fetch_news`: renders the news list to `news_text`; on an empty list
it only prints a warning (in ask_AI mode) and returns the state unchanged. -/
def fetch_news (s : AgentState) : NodeOut :=
  if s.news = [] then ⟨s, [], []⟩
  else
    ⟨{ s with news_text := some (String.join (s.news.map newsEntry)) },
      [Field.news_text], []⟩

/-- One rendered source block of `build_context` (0-based index `idx`,
rendered as `Source idx+1`). -/
def docBlock (idx : ℕ) (d : Doc) : String :=
  "[Source " ++ toString (idx + 1) ++ "] \n" ++
  "title: " ++ d.title ++ " \n" ++
  "snippet: " ++ d.snippet ++ " \n" ++
  "url: " ++ d.url ++ " \n" ++
  "published_at: " ++ d.published_at ++ " \n"

/-- The fallback context sentence used by `build_context` when no background
documents are available. -/
def noDocsFallback (symbol : String) : String :=
  "This is supposed to be a historical overview of " ++ symbol ++
  ", but no background documents were available from the search engine."

/-- Node `build_context`: renders the numbered source list to `context_text`,
or the deterministic fallback sentence when the document list is empty. -/
def build_context (s : AgentState) : NodeOut :=
  if s.docs = [] then
    ⟨{ s with context_text := some (noDocsFallback s.symbol) },
      [Field.context_text], []⟩
  else
    ⟨{ s with context_text := some (String.join (s.docs.enum.map fun p => docBlock p.1 p.2)) },
      [Field.context_text], []⟩

/-- `router`: maps the recognized modes to branch names; any other mode falls
off the end of the Python function, returning `None`. -/
def router (s : AgentState) : Option String :=
  if s.mode = "overview" then some "overview"
  else if s.mode = "ask_AI" then some "ask_AI"
  else if s.mode = "history" then some "history"
  else none

/-- System message shared by the overview call and the ask_AI draft call. -/
def analystSystem : String := "You are a concise, factual financial analyst."

/-- User prompt of the single overview generation call. -/
def overviewPrompt (symbol start_date end_date : String) (ind : Indicators)
    (chart_text : String) : String :=
  "\n    You are a financial analyst.\n\n    You are given price data for " ++
  symbol ++ " between " ++ start_date ++ " and " ++ end_date ++
  ".\n    Summarize the important changes in price and overall trend in 3–5 sentences.\n" ++
  "    Be concrete with numbers (approximate is fine) and DO NOT give any investment advice.\n\n" ++
  "    Indicators:\n    - Start price: " ++ floatStr ind.start_price ++
  "\n    - End price: " ++ floatStr ind.end_price ++
  "\n    - Return (%): " ++ floatStr ind.return_pct ++
  "\n    - Max drawdown (%): " ++ floatStr ind.max_drawdown_pct ++
  "\n\n    Sampled prices over time:\n    " ++ chart_text ++
  "\n\n    Write a clear, human-friendly paragraph describing:\n" ++
  "    - overall direction (up, down, sideways),\n" ++
  "    - approximate magnitude of moves,\n" ++
  "    - whether the path was smooth or volatile,\n" ++
  "    - where major dips or peaks occurred (dates + approximate levels).\n    "

/-- Generator `overview`: single LLM call; reads `state["chart_text"]`, so a
missing key raises (the empty-chart case leaves it unset). -/
def overview (llm : LLM) (s : AgentState) : Except String NodeOut :=
  match s.chart_text with
  | none => Except.error "KeyError: chart_text"
  | some chart_text =>
    let prompt := overviewPrompt s.symbol s.start_date s.end_date s.indicators chart_text
    Except.ok ⟨{ s with answer := some ((llm analystSystem prompt).trim) },
      [Field.answer], [⟨analystSystem, prompt⟩]⟩

/-- The news-section default of `ask_AI`:
`state.get("news_text", "No relevant news articles were available for this period.")`. -/
def noNewsFallback : String :=
  "No relevant news articles were available for this period."

/-- User prompt of the ask_AI draft call. -/
def askDraftPrompt (symbol : String) (ind : Indicators)
    (news_text question : String) : String :=
  " \n    You are a financial analyst.\n\n    A user is asking a question about " ++
  symbol ++ ". Use the numeric indicators and\n" ++
  "    the recent news headlines to answer. You are allowed to speculate about\n" ++
  "    possible causes, but you must use cautious language like \"likely\", \"may\",\n" ++
  "    or \"could\", and you must NOT give investment advice.\n\n    Asset: " ++
  symbol ++
  "\n\n    Indicators:\n    - Start price: " ++ floatStr ind.start_price ++
  "\n    - End price: " ++ floatStr ind.end_price ++
  "\n    - Return (%): " ++ floatStr ind.return_pct ++
  "\n    - Max drawdown (%): " ++ floatStr ind.max_drawdown_pct ++
  "\n\n    Recent news:\n    " ++ news_text ++
  "\n\n    User question:\n    \"\"\"" ++ question ++ "\"\"\"" ++
  "\n\n    Answer in a few concise paragraphs. Clearly explain how the price moved\n" ++
  "    and how the news might relate to that move. Do not mention that you are an AI.\n    "

/-- System message of the ask_AI verify call. -/
def askVerifySystem : String :=
  "You are a strict fact-checker. You only allow statements grounded in the given news and indicators."

/-- User prompt of the ask_AI verify call: built from the symbol, the same
indicators and news text given to the draft call, and the draft text. -/
def askVerifyPrompt (symbol : String) (ind : Indicators)
    (news_text draft_text : String) : String :=
  "\n    You are verifying an answer about " ++ symbol ++
  " against the available news and price indicators.\n\n" ++
  "    Indicators:\n    - Start price: " ++ floatStr ind.start_price ++
  "\n    - End price: " ++ floatStr ind.end_price ++
  "\n    - Return (%): " ++ floatStr ind.return_pct ++
  "\n    - Max drawdown (%): " ++ floatStr ind.max_drawdown_pct ++
  "\n\n    News:\n    " ++ news_text ++
  "\n\n    Draft answer:\n    \"\"\"" ++ draft_text ++ "\"\"\"" ++
  "\n\n    Task:\n" ++
  "    - Rewrite the answer so that every factual claim is clearly supported by the news and/or indicators.\n" ++
  "    - Remove or soften any claims that are not clearly grounded in the news or indicators.\n" ++
  "    - If the user's question cannot be directly answered from these news articles and indicators,\n" ++
  "      explicitly say that the available news and price data do not directly answer the question.\n" ++
  "    - Do NOT introduce any new facts beyond what appears in the news text or indicators.\n" ++
  "    - It is OK to explain uncertainty, but do not fabricate unseen events or news.\n    "

/-- Generator `ask_AI`: a draft call (indicators + news + question) followed by
a verify call (same indicators and news, plus the draft text). -/
def ask_AI (llm : LLM) (s : AgentState) : Except String NodeOut :=
  let news_text := s.news_text.getD noNewsFallback
  let draft_prompt := askDraftPrompt s.symbol s.indicators news_text s.question
  let draft_text := (llm analystSystem draft_prompt).trim
  let verify_prompt := askVerifyPrompt s.symbol s.indicators news_text draft_text
  Except.ok ⟨{ s with answer := some ((llm askVerifySystem verify_prompt).trim) },
    [Field.answer],
    [⟨analystSystem, draft_prompt⟩, ⟨askVerifySystem, verify_prompt⟩]⟩

/-- System message of the history draft call. -/
def historyDraftSystem : String :=
  "You are a careful, neutral crypto historian. You only use the information provided in the context."

/-- User prompt of the history draft call. -/
def historyDraftPrompt (symbol context_text : String) : String :=
  "You are a crypto historian. Using ONLY the information in the sources below, \n" ++
  "    write a concise but rich background history for the asset " ++ symbol ++
  " (a cryptocurrency).\n\n    Your draft must:\n" ++
  "    - Focus on long-term history, not just recent price moves.\n" ++
  "    - Cover, when possible:\n      * its creation or launch,\n" ++
  "      * who created it (if known),\n      * what problem it tries to solve,\n" ++
  "      * key technical ideas (briefly),\n      * major protocol upgrades or forks,\n" ++
  "      * important historical events (bubbles, crashes, regulatory moments, hacks, etc.).\n" ++
  "    - Mention specific years or rough dates when you can.\n" ++
  "    - Stay factual and neutral. No investment advice or price predictions.\n" ++
  "    - Optionally reference sources like “(Source 1)” when you use them.\n\n" ++
  "    Sources:\n    " ++ context_text ++
  "\n\n    Now write 2–4 short paragraphs in clear, accessible language."

/-- System message of the history verify call. -/
def historyVerifySystem : String :=
  "You are a strict fact-checker. You only allow statements that are supported by the given sources."

/-- User prompt of the history verify call: built from the symbol, the same
context text given to the draft call, and the draft text. -/
def historyVerifyPrompt (symbol context_text draft_text : String) : String :=
  "\n    You are verifying a draft historical summary about " ++ symbol ++
  " against the sources.\n\n    Sources:\n    " ++ context_text ++
  "\n\n    Draft summary:\n    \"\"\"" ++ draft_text ++ "\"\"\"" ++
  "\n\n    Task:\n" ++
  "    - Rewrite the summary so that EVERY factual claim is directly supported by the sources.\n" ++
  "    - Remove or soften any claims that are not clearly grounded in the sources.\n" ++
  "    - If specific details (dates, names, events) are not in the sources, do NOT invent them.\n" ++
  "    - If some part of the requested history is not covered by the sources, explicitly say\n" ++
  "      that the sources do not provide that information.\n" ++
  "    - Do NOT add any new facts beyond what appears in the Sources.\n" ++
  "    - Keep the final answer concise (2–4 short paragraphs).\n    "

/-- Generator `history`: a draft call (numbered sources) followed by a verify
call (same sources plus the draft text); reads `state["context_text"]`. -/
def history (llm : LLM) (s : AgentState) : Except String NodeOut :=
  match s.context_text with
  | none => Except.error "KeyError: context_text"
  | some context_text =>
    let draft_prompt := historyDraftPrompt s.symbol context_text
    let draft_text := (llm historyDraftSystem draft_prompt).trim
    let verify_prompt := historyVerifyPrompt s.symbol context_text draft_text
    Except.ok ⟨{ s with answer := some ((llm historyVerifySystem verify_prompt).trim) },
      [Field.answer],
      [⟨historyDraftSystem, draft_prompt⟩, ⟨historyVerifySystem, verify_prompt⟩]⟩

/-- Outcome of one `agent.invoke`: the final state (or the raised exception),
the node names entered in order, the derived-field assignments performed, and
the LLM calls made. -/
structure RunOut where
  result : Except String AgentState
  visited : List String
  writes : List Field
  calls : List LLMCall

/-- The compiled graph: START → chart_compression → fetch_news →
build_context → router → (conditional edge on `router`) → generator → END.
An unrecognized mode makes `router` return `None`, which is not a key of the
conditional-edge mapping, so the run raises there — after the three
formatting nodes have already executed, before any generator. -/
def runAgent (llm : LLM) (s0 : AgentState) : RunOut :=
  let o1 := chart_compression s0
  let o2 := fetch_news o1.state
  let o3 := build_context o2.state
  let preW := o1.writes ++ o2.writes ++ o3.writes
  let preV := ["chart_compression", "fetch_news", "build_context", "router"]
  match router o3.state with
  | none =>
    ⟨Except.error "Branch condition returned unknown or null destination", preV, preW, []⟩
  | some g =>
    let gen : Except String NodeOut :=
      if g = "overview" then overview llm o3.state
      else if g = "ask_AI" then ask_AI llm o3.state
      else if g = "history" then history llm o3.state
      else Except.error ("Branch condition returned unknown destination " ++ g)
    match gen with
    | Except.ok o4 => ⟨Except.ok o4.state, preV ++ [g], preW ++ o4.writes, o4.calls⟩
    | Except.error e => ⟨Except.error e, preV ++ [g], preW, []⟩

@[simp] theorem cc_mode (s : AgentState) : (chart_compression s).state.mode = s.mode := by
  unfold chart_compression; split <;> rfl

@[simp] theorem cc_symbol (s : AgentState) : (chart_compression s).state.symbol = s.symbol := by
  unfold chart_compression; split <;> rfl

@[simp] theorem cc_start (s : AgentState) : (chart_compression s).state.start_date = s.start_date := by
  unfold chart_compression; split <;> rfl

@[simp] theorem cc_end (s : AgentState) : (chart_compression s).state.end_date = s.end_date := by
  unfold chart_compression; split <;> rfl

@[simp] theorem cc_ind (s : AgentState) : (chart_compression s).state.indicators = s.indicators := by
  unfold chart_compression; split <;> rfl

@[simp] theorem cc_q (s : AgentState) : (chart_compression s).state.question = s.question := by
  unfold chart_compression; split <;> rfl

@[simp] theorem cc_chart (s : AgentState) : (chart_compression s).state.chart = s.chart := by
  unfold chart_compression; split <;> rfl

@[simp] theorem cc_news (s : AgentState) : (chart_compression s).state.news = s.news := by
  unfold chart_compression; split <;> rfl

@[simp] theorem cc_docs (s : AgentState) : (chart_compression s).state.docs = s.docs := by
  unfold chart_compression; split <;> rfl

@[simp] theorem cc_newsText (s : AgentState) : (chart_compression s).state.news_text = s.news_text := by
  unfold chart_compression; split <;> rfl

@[simp] theorem cc_ctxText (s : AgentState) : (chart_compression s).state.context_text = s.context_text := by
  unfold chart_compression; split <;> rfl

theorem cc_chartText (s : AgentState) :
    (chart_compression s).state.chart_text =
      if s.chart = [] then s.chart_text
      else some (String.join ((if 20 < s.chart.length then
        sliceEvery ((s.chart.length + 19) / 20) s.chart else s.chart).map chartLine)) := by
  unfold chart_compression; by_cases h : s.chart = [] <;> simp [h]

theorem cc_writes (s : AgentState) :
    (chart_compression s).writes = if s.chart = [] then [] else [Field.chart_text] := by
  unfold chart_compression; by_cases h : s.chart = [] <;> simp [h]

@[simp] theorem fn_mode (s : AgentState) : (fetch_news s).state.mode = s.mode := by
  unfold fetch_news; split <;> rfl

@[simp] theorem fn_symbol (s : AgentState) : (fetch_news s).state.symbol = s.symbol := by
  unfold fetch_news; split <;> rfl

@[simp] theorem fn_start (s : AgentState) : (fetch_news s).state.start_date = s.start_date := by
  unfold fetch_news; split <;> rfl

@[simp] theorem fn_end (s : AgentState) : (fetch_news s).state.end_date = s.end_date := by
  unfold fetch_news; split <;> rfl

@[simp] theorem fn_ind (s : AgentState) : (fetch_news s).state.indicators = s.indicators := by
  unfold fetch_news; split <;> rfl

@[simp] theorem fn_q (s : AgentState) : (fetch_news s).state.question = s.question := by
  unfold fetch_news; split <;> rfl

@[simp] theorem fn_chart (s : AgentState) : (fetch_news s).state.chart = s.chart := by
  unfold fetch_news; split <;> rfl

@[simp] theorem fn_news (s : AgentState) : (fetch_news s).state.news = s.news := by
  unfold fetch_news; split <;> rfl

@[simp] theorem fn_docs (s : AgentState) : (fetch_news s).state.docs = s.docs := by
  unfold fetch_news; split <;> rfl

@[simp] theorem fn_chartText (s : AgentState) : (fetch_news s).state.chart_text = s.chart_text := by
  unfold fetch_news; split <;> rfl

@[simp] theorem fn_ctxText (s : AgentState) : (fetch_news s).state.context_text = s.context_text := by
  unfold fetch_news; split <;> rfl

theorem fn_newsText (s : AgentState) :
    (fetch_news s).state.news_text =
      if s.news = [] then s.news_text
      else some (String.join (s.news.map newsEntry)) := by
  unfold fetch_news; by_cases h : s.news = [] <;> simp [h]

theorem fn_writes (s : AgentState) :
    (fetch_news s).writes = if s.news = [] then [] else [Field.news_text] := by
  unfold fetch_news; by_cases h : s.news = [] <;> simp [h]

@[simp] theorem bc_mode (s : AgentState) : (build_context s).state.mode = s.mode := by
  unfold build_context; split <;> rfl

@[simp] theorem bc_symbol (s : AgentState) : (build_context s).state.symbol = s.symbol := by
  unfold build_context; split <;> rfl

@[simp] theorem bc_start (s : AgentState) : (build_context s).state.start_date = s.start_date := by
  unfold build_context; split <;> rfl

@[simp] theorem bc_end (s : AgentState) : (build_context s).state.end_date = s.end_date := by
  unfold build_context; split <;> rfl

@[simp] theorem bc_ind (s : AgentState) : (build_context s).state.indicators = s.indicators := by
  unfold build_context; split <;> rfl

@[simp] theorem bc_q (s : AgentState) : (build_context s).state.question = s.question := by
  unfold build_context; split <;> rfl

@[simp] theorem bc_chart (s : AgentState) : (build_context s).state.chart = s.chart := by
  unfold build_context; split <;> rfl

@[simp] theorem bc_news (s : AgentState) : (build_context s).state.news = s.news := by
  unfold build_context; split <;> rfl

@[simp] theorem bc_docs (s : AgentState) : (build_context s).state.docs = s.docs := by
  unfold build_context; split <;> rfl

@[simp] theorem bc_chartText (s : AgentState) : (build_context s).state.chart_text = s.chart_text := by
  unfold build_context; split <;> rfl

@[simp] theorem bc_newsText (s : AgentState) : (build_context s).state.news_text = s.news_text := by
  unfold build_context; split <;> rfl

theorem bc_ctxText (s : AgentState) :
    (build_context s).state.context_text =
      some (if s.docs = [] then noDocsFallback s.symbol
        else String.join (s.docs.enum.map fun p => docBlock p.1 p.2)) := by
  unfold build_context; by_cases h : s.docs = [] <;> simp [h]

theorem bc_writes (s : AgentState) : (build_context s).writes = [Field.context_text] := by
  unfold build_context; split <;> rfl

/-- The state after the three unconditional formatting stages, just before
the router node. -/
def formattedState (s : AgentState) : AgentState :=
  (build_context (fetch_news (chart_compression s).state).state).state

/-- The derived-field assignments performed by the three formatting stages. -/
def stageWrites (s : AgentState) : List Field :=
  (chart_compression s).writes ++
  (fetch_news (chart_compression s).state).writes ++
  (build_context (fetch_news (chart_compression s).state).state).writes

/-- The four nodes every run enters before the conditional edge. -/
def pipeNodes : List String :=
  ["chart_compression", "fetch_news", "build_context", "router"]

@[simp] theorem formattedState_mode (s : AgentState) : (formattedState s).mode = s.mode := by
  simp [formattedState]

@[simp] theorem formattedState_symbol (s : AgentState) : (formattedState s).symbol = s.symbol := by
  simp [formattedState]

@[simp] theorem formattedState_ind (s : AgentState) :
    (formattedState s).indicators = s.indicators := by
  simp [formattedState]

@[simp] theorem formattedState_q (s : AgentState) : (formattedState s).question = s.question := by
  simp [formattedState]

@[simp] theorem formattedState_start (s : AgentState) :
    (formattedState s).start_date = s.start_date := by
  simp [formattedState]

@[simp] theorem formattedState_end (s : AgentState) :
    (formattedState s).end_date = s.end_date := by
  simp [formattedState]

@[simp] theorem formattedState_chart (s : AgentState) : (formattedState s).chart = s.chart := by
  simp [formattedState]

@[simp] theorem formattedState_news (s : AgentState) : (formattedState s).news = s.news := by
  simp [formattedState]

@[simp] theorem formattedState_docs (s : AgentState) : (formattedState s).docs = s.docs := by
  simp [formattedState]

theorem formattedState_newsText (s : AgentState) :
    (formattedState s).news_text =
      if s.news = [] then s.news_text else some (String.join (s.news.map newsEntry)) := by
  simp [formattedState, fn_newsText]

theorem formattedState_chartText (s : AgentState) :
    (formattedState s).chart_text =
      if s.chart = [] then s.chart_text
      else some (String.join ((if 20 < s.chart.length then
        sliceEvery ((s.chart.length + 19) / 20) s.chart else s.chart).map chartLine)) := by
  simp [formattedState, cc_chartText]

theorem formattedState_ctxText (s : AgentState) :
    (formattedState s).context_text =
      some (if s.docs = [] then noDocsFallback s.symbol
        else String.join (s.docs.enum.map fun p => docBlock p.1 p.2)) := by
  simp [formattedState, bc_ctxText]

theorem runAgent_overview_eq (llm : LLM) (s : AgentState) (h : s.mode = "overview") :
    runAgent llm s =
      match overview llm (formattedState s) with
      | Except.ok o4 =>
        ⟨Except.ok o4.state, pipeNodes ++ ["overview"], stageWrites s ++ o4.writes, o4.calls⟩
      | Except.error e =>
        ⟨Except.error e, pipeNodes ++ ["overview"], stageWrites s, []⟩ := by
  have hr : router (formattedState s) = some "overview" := by
    simp [router, h]
  simp only [runAgent]
  rw [show (build_context (fetch_news (chart_compression s).state).state).state
      = formattedState s from rfl, hr]
  simp [formattedState, stageWrites, pipeNodes]

theorem runAgent_ask_eq (llm : LLM) (s : AgentState) (h : s.mode = "ask_AI") :
    runAgent llm s =
      match ask_AI llm (formattedState s) with
      | Except.ok o4 =>
        ⟨Except.ok o4.state, pipeNodes ++ ["ask_AI"], stageWrites s ++ o4.writes, o4.calls⟩
      | Except.error e =>
        ⟨Except.error e, pipeNodes ++ ["ask_AI"], stageWrites s, []⟩ := by
  have hr : router (formattedState s) = some "ask_AI" := by
    simp [router, h]
  simp only [runAgent]
  rw [show (build_context (fetch_news (chart_compression s).state).state).state
      = formattedState s from rfl, hr]
  simp [formattedState, stageWrites, pipeNodes]

theorem runAgent_history_eq (llm : LLM) (s : AgentState) (h : s.mode = "history") :
    runAgent llm s =
      match history llm (formattedState s) with
      | Except.ok o4 =>
        ⟨Except.ok o4.state, pipeNodes ++ ["history"], stageWrites s ++ o4.writes, o4.calls⟩
      | Except.error e =>
        ⟨Except.error e, pipeNodes ++ ["history"], stageWrites s, []⟩ := by
  have hr : router (formattedState s) = some "history" := by
    simp [router, h]
  simp only [runAgent]
  rw [show (build_context (fetch_news (chart_compression s).state).state).state
      = formattedState s from rfl, hr]
  simp [formattedState, stageWrites, pipeNodes]

theorem runAgent_invalid_eq (llm : LLM) (s : AgentState)
    (h1 : s.mode ≠ "overview") (h2 : s.mode ≠ "ask_AI") (h3 : s.mode ≠ "history") :
    runAgent llm s =
      ⟨Except.error "Branch condition returned unknown or null destination",
        pipeNodes, stageWrites s, []⟩ := by
  have hr : router (formattedState s) = none := by
    simp [router, h1, h2, h3]
  simp only [runAgent]
  rw [show (build_context (fetch_news (chart_compression s).state).state).state
      = formattedState s from rfl, hr]
  simp [formattedState, stageWrites, pipeNodes]

theorem overview_none (llm : LLM) (s : AgentState) (h : s.chart_text = none) :
    overview llm s = Except.error "KeyError: chart_text" := by
  unfold overview; rw [h]

theorem overview_some (llm : LLM) (s : AgentState) (ct : String)
    (h : s.chart_text = some ct) :
    overview llm s = Except.ok
      ⟨{ s with answer := some ((llm analystSystem
          (overviewPrompt s.symbol s.start_date s.end_date s.indicators ct)).trim) },
        [Field.answer],
        [⟨analystSystem, overviewPrompt s.symbol s.start_date s.end_date s.indicators ct⟩]⟩ := by
  unfold overview; rw [h]

theorem ask_AI_eq (llm : LLM) (s : AgentState) :
    ask_AI llm s = Except.ok
      ⟨{ s with answer := some ((llm askVerifySystem
          (askVerifyPrompt s.symbol s.indicators (s.news_text.getD noNewsFallback)
            ((llm analystSystem (askDraftPrompt s.symbol s.indicators
              (s.news_text.getD noNewsFallback) s.question)).trim))).trim) },
        [Field.answer],
        [⟨analystSystem, askDraftPrompt s.symbol s.indicators
            (s.news_text.getD noNewsFallback) s.question⟩,
         ⟨askVerifySystem, askVerifyPrompt s.symbol s.indicators
            (s.news_text.getD noNewsFallback)
            ((llm analystSystem (askDraftPrompt s.symbol s.indicators
              (s.news_text.getD noNewsFallback) s.question)).trim)⟩]⟩ := rfl

theorem history_none (llm : LLM) (s : AgentState) (h : s.context_text = none) :
    history llm s = Except.error "KeyError: context_text" := by
  unfold history; rw [h]

theorem history_some (llm : LLM) (s : AgentState) (cx : String)
    (h : s.context_text = some cx) :
    history llm s = Except.ok
      ⟨{ s with answer := some ((llm historyVerifySystem
          (historyVerifyPrompt s.symbol cx
            ((llm historyDraftSystem (historyDraftPrompt s.symbol cx)).trim))).trim) },
        [Field.answer],
        [⟨historyDraftSystem, historyDraftPrompt s.symbol cx⟩,
         ⟨historyVerifySystem, historyVerifyPrompt s.symbol cx
            ((llm historyDraftSystem (historyDraftPrompt s.symbol cx)).trim)⟩]⟩ := by
  unfold history; rw [h]

/-!
## Endpoint models (`main.py`)

Each endpoint is modelled as a function of its collaborator outcomes: the
market fetch, the news/docs fetch, and the graph/LLM invocation, each an
`Except` mirroring a possible Python exception.  `HTTPException` becomes the
error side of the returned `Except`.
-/

/-- Result of `fetch_crypto_history`. -/
structure MarketResult where
  chart : List ChartPoint
  indicators : Indicators
deriving DecidableEq

/-- A raised `HTTPException`. -/
structure HTTPError where
  status : ℕ
  detail : String
deriving DecidableEq

/-- Response body of `/api/asset/.../summary`. -/
structure SummaryResponse where
  start_date : String
  end_date : String
  chart : List ChartPoint
  indicators : Indicators
  news : List NewsItem
  summary : String
deriving DecidableEq

/-- Response body of `/api/asset/.../qa`. -/
structure QAResponse where
  indicators : Indicators
  news : List NewsItem
  answer : String
deriving DecidableEq

/-- Response body of `/api/asset/.../history`. -/
structure HistoryResponse where
  chart : List ChartPoint
  history_story : String
  news : List Doc
deriving DecidableEq

/-- The deterministic summary fallback used when the graph/LLM call fails in
`get_summary` (and `get_summary_text`). -/
def summaryFallback (start_date end_date symbol : String) (ind : Indicators) : String :=
  "Between " ++ start_date ++ " and " ++ end_date ++ ", " ++ symbol ++
  " moved from " ++ floatStr ind.start_price ++ " to " ++ floatStr ind.end_price ++
  " USD (" ++ floatStr ind.return_pct ++ "% return). " ++
  "A detailed summary is temporarily unavailable."

/-- The deterministic answer fallback used when the graph/LLM call fails in
`get_qa`. -/
def qaFallback (start_date end_date symbol : String) (ind : Indicators) : String :=
  "Between " ++ start_date ++ " and " ++ end_date ++ ", " ++ symbol ++
  " moved from " ++ floatStr ind.start_price ++ " to " ++ floatStr ind.end_price ++
  " USD (" ++ floatStr ind.return_pct ++ "% return). " ++
  "A detailed explanation is temporarily unavailable."

/-- The deterministic story fallback used when the graph/LLM call fails in
`get_history`; it is built from the symbol alone. -/
def historyFallback (symbol : String) : String :=
  "This is supposed to be a historical overview of " ++ symbol ++
  ", but the summary component failed. Please try again later."

/-- Endpoint `get_summary`: market failure is a 400; news failure degrades to
an empty list; a generation failure is replaced by the numeric fallback. -/
def get_summary (symbol start_date end_date : String)
    (market : Except String MarketResult)
    (newsRes : Except String (List NewsItem))
    (gen : Except String String) : Except HTTPError SummaryResponse :=
  match market with
  | Except.error e => Except.error ⟨400, e⟩
  | Except.ok m =>
    let news := match newsRes with
      | Except.ok n => n
      | Except.error _ => []
    let summary := match gen with
      | Except.ok t => t
      | Except.error _ => summaryFallback start_date end_date symbol m.indicators
    Except.ok ⟨start_date, end_date, m.chart, m.indicators, news, summary⟩

/-- Endpoint `get_qa`: same structure as `get_summary` with the answer
fallback. -/
def get_qa (symbol start_date end_date : String)
    (market : Except String MarketResult)
    (newsRes : Except String (List NewsItem))
    (gen : Except String String) : Except HTTPError QAResponse :=
  match market with
  | Except.error e => Except.error ⟨400, e⟩
  | Except.ok m =>
    let news := match newsRes with
      | Except.ok n => n
      | Except.error _ => []
    let answer := match gen with
      | Except.ok t => t
      | Except.error _ => qaFallback start_date end_date symbol m.indicators
    Except.ok ⟨m.indicators, news, answer⟩

/-- Endpoint `get_history`: every collaborator failure degrades (chart `[]`,
docs `[]`, symbol-only story fallback); the endpoint never raises. -/
def get_history (symbol : String)
    (market : Except String MarketResult)
    (docsRes : Except String (List Doc))
    (gen : Except String String) : HistoryResponse :=
  let chart := match market with
    | Except.ok m => m.chart
    | Except.error _ => []
  let docs := match docsRes with
    | Except.ok d => d
    | Except.error _ => []
  let story := match gen with
    | Except.ok t => t
    | Except.error _ => historyFallback symbol
  ⟨chart, story, docs⟩

/-!
## Concrete sample data (used by witnesses and counterexamples)
-/

/-- A trivial LLM oracle for concrete runs. -/
def llm0 : LLM := fun _sys _user => " model output "

def ind0 : Indicators := ⟨42000, 44500, 59 / 10, -16 / 5⟩

def chart0 : List ChartPoint :=
  [⟨"2024-01-01", 42000⟩, ⟨"2024-01-02", 42100⟩, ⟨"2024-01-03", 42050⟩]

def news0 : List NewsItem :=
  [⟨"2024-01-05", "BTC jumps after ETF news", "Bitcoin rallied", "https://example.com/article-1"⟩]

/-- A document carrying a full-content field that differs from its snippet. -/
def doc0 : Doc :=
  ⟨"Bitcoin whitepaper", "SNIPPETONLY", "https://bitcoin.org", "2008-10-31", some "ZZCONTENTZZ"⟩

def baseState : AgentState :=
  { mode := "", symbol := "BTC", start_date := "2024-01-01", end_date := "2024-01-31",
    indicators := ind0, chart := chart0, news := news0, docs := [doc0],
    question := "Why did BTC move?" }

def sOv : AgentState := { baseState with mode := "overview" }

def sAsk : AgentState := { baseState with mode := "ask_AI" }

def sHist : AgentState := { baseState with mode := "history" }

/-!
## Claim theorems
-/

theorem sample_branch_eq (s : AgentState) :
    (if 20 < s.chart.length then sliceEvery ((s.chart.length + 19) / 20) s.chart
      else s.chart) = sliceEvery (sampleStep s.chart.length) s.chart := by
  unfold sampleStep
  split
  · rfl
  · rw [sliceEvery_one]

theorem sampleStep_pos (L : ℕ) : 1 ≤ sampleStep L := by
  unfold sampleStep
  split
  · rw [Nat.le_div_iff_mul_le (by omega)]
    omega
  · exact le_rfl

/-- **C2.** For every non-empty chart of length `L` the compression stage
renders, in input order, exactly the points at indices `0, step, 2*step, …`
with `step = ceil(L/20)` when `L > 20` and `step = 1` otherwise (one line per
point, `date: price to two decimals`); the number of rendered lines is
`ceil(L / step)` and the first input point is always rendered. -/
theorem chart_compression_stride_spec (s : AgentState) (h : s.chart ≠ []) :
    (chart_compression s).state.chart_text =
      some (String.join ((sliceEvery (sampleStep s.chart.length) s.chart).map chartLine))
    ∧ (sliceEvery (sampleStep s.chart.length) s.chart).length
        = (s.chart.length + sampleStep s.chart.length - 1) / sampleStep s.chart.length
    ∧ (∀ k : ℕ, (sliceEvery (sampleStep s.chart.length) s.chart)[k]?
        = s.chart[k * sampleStep s.chart.length]?)
    ∧ (sliceEvery (sampleStep s.chart.length) s.chart).head? = s.chart.head? := by
  have hs := sampleStep_pos s.chart.length
  refine ⟨?_, sliceEvery_length _ hs _, fun k => sliceEvery_getElem? _ hs _ k, ?_⟩
  · rw [cc_chartText, sample_branch_eq]
    simp [h]
  · have h0 := sliceEvery_getElem? (sampleStep s.chart.length) hs s.chart 0
    simpa [← List.head?_eq_getElem?] using h0

theorem chart_compression_stride_spec_witness :
    ((chart_compression sOv).state.chart_text =
      some (String.join ((sliceEvery (sampleStep sOv.chart.length) sOv.chart).map chartLine))
    ∧ (sliceEvery (sampleStep sOv.chart.length) sOv.chart).length
        = (sOv.chart.length + sampleStep sOv.chart.length - 1) / sampleStep sOv.chart.length
    ∧ (∀ k : ℕ, (sliceEvery (sampleStep sOv.chart.length) sOv.chart)[k]?
        = sOv.chart[k * sampleStep sOv.chart.length]?)
    ∧ (sliceEvery (sampleStep sOv.chart.length) sOv.chart).head? = sOv.chart.head?) :=
  chart_compression_stride_spec sOv (by decide)

/-- **C7.** For every non-empty news list the formatting stage sets
`news_text` to the concatenation, in input order, of one entry per record
(publish date, title, snippet, then URL); the rendered entry sequence is in
one-to-one, order-preserving correspondence with the input records. -/
theorem fetch_news_entries_spec (s : AgentState) (h : s.news ≠ []) :
    (fetch_news s).state.news_text = some (String.join (s.news.map newsEntry))
    ∧ (s.news.map newsEntry).length = s.news.length
    ∧ (∀ k : ℕ, (s.news.map newsEntry)[k]? = (s.news[k]?).map newsEntry) := by
  refine ⟨?_, by simp, fun k => by simp⟩
  rw [fn_newsText]
  simp [h]

theorem fetch_news_entries_spec_witness :
    ((fetch_news sAsk).state.news_text = some (String.join (sAsk.news.map newsEntry))
    ∧ (sAsk.news.map newsEntry).length = sAsk.news.length
    ∧ (∀ k : ℕ, (sAsk.news.map newsEntry)[k]? = (sAsk.news[k]?).map newsEntry)) :=
  fetch_news_entries_spec sAsk (by decide)

def sDocsEmpty : AgentState := { baseState with mode := "history", docs := [] }

/-- **C5 (amended).** Empty document list: `context_text` is the deterministic
fallback sentence built around the symbol.  Non-empty list: `context_text` is
the concatenation of one `[Source N]` block per document, numbered `1..N` in
input order; each block renders the document's title, its snippet (the stage
always renders the snippet field, even when a full-content field is present),
its url, and its publish date. -/
theorem build_context_blocks_spec (s : AgentState) :
    (s.docs = [] → (build_context s).state.context_text = some (noDocsFallback s.symbol))
    ∧ (s.docs ≠ [] → (build_context s).state.context_text
        = some (String.join (s.docs.enum.map fun p => docBlock p.1 p.2)))
    ∧ (s.docs.enum.map fun p => docBlock p.1 p.2).length = s.docs.length
    ∧ (∀ k : ℕ, (s.docs.enum.map fun p => docBlock p.1 p.2)[k]?
        = (s.docs[k]?).map (docBlock k)) := by
  refine ⟨fun h => ?_, fun h => ?_, by simp, fun k => ?_⟩
  · rw [bc_ctxText]; simp [h]
  · rw [bc_ctxText]; simp [h]
  · simp [List.getElem?_enum, Option.map_map]
    rfl

theorem build_context_blocks_spec_witness :
    ((build_context sDocsEmpty).state.context_text = some (noDocsFallback sDocsEmpty.symbol))
    ∧ ((build_context sHist).state.context_text
        = some (String.join (sHist.docs.enum.map fun p => docBlock p.1 p.2))) :=
  ⟨(build_context_blocks_spec sDocsEmpty).1 rfl,
   (build_context_blocks_spec sHist).2.1 (by decide)⟩

set_option maxRecDepth 40000 in
/-- **C5, counterexample.** On a document whose full-content field is present
and differs from its snippet, the rendered block carries the snippet and not
the content — refuting the claim that the stage prefers a present
full-content field. -/
theorem build_context_ignores_content :
    (build_context sHist).state.context_text.isSome = true
    ∧ ¬ List.IsInfix "ZZCONTENTZZ".data ((build_context sHist).state.context_text.getD "").data
    ∧ List.IsInfix "SNIPPETONLY".data ((build_context sHist).state.context_text.getD "").data := by
  refine ⟨rfl, by decide, by decide⟩

/-- **C3.** Every request with a recognized mode passes through the nodes
chart_compression, fetch_news, build_context, router in that fixed order and
then enters exactly one generator, which is terminal: no node is entered
twice and exactly one of the three generator nodes appears in the trace. -/
theorem pipeline_fixed_order (llm : LLM) (s : AgentState)
    (h : s.mode = "overview" ∨ s.mode = "ask_AI" ∨ s.mode = "history") :
    (runAgent llm s).visited
      = ["chart_compression", "fetch_news", "build_context", "router", s.mode]
    ∧ (runAgent llm s).visited.Nodup
    ∧ ((runAgent llm s).visited.countP
        (fun n => n = "overview" ∨ n = "ask_AI" ∨ n = "history")) = 1 := by
  have key : (runAgent llm s).visited = pipeNodes ++ [s.mode] := by
    rcases h with h | h | h
    · rw [runAgent_overview_eq llm s h]
      cases hov : overview llm (formattedState s) <;> simp [h]
    · rw [runAgent_ask_eq llm s h]
      cases hask : ask_AI llm (formattedState s) <;> simp [h]
    · rw [runAgent_history_eq llm s h]
      cases hh : history llm (formattedState s) <;> simp [h]
  rw [key]
  rcases h with h | h | h <;> rw [h] <;> refine ⟨rfl, by decide, by decide⟩

theorem pipeline_fixed_order_witness :
    ((runAgent llm0 sHist).visited
      = ["chart_compression", "fetch_news", "build_context", "router", sHist.mode]
    ∧ (runAgent llm0 sHist).visited.Nodup
    ∧ ((runAgent llm0 sHist).visited.countP
        (fun n => n = "overview" ∨ n = "ask_AI" ∨ n = "history")) = 1) :=
  pipeline_fixed_order llm0 sHist (Or.inr (Or.inr rfl))

/-- **C4 (amended).** A request whose mode is not one of the three recognized
values fails at the conditional edge after the router node: no generator node
is entered and no model call is made — but the three formatting stages have
already run by then, so a derived text field (context_text at least) has been
populated during the rejected run. -/
theorem invalid_mode_rejection (llm : LLM) (s : AgentState)
    (h1 : s.mode ≠ "overview") (h2 : s.mode ≠ "ask_AI") (h3 : s.mode ≠ "history") :
    (runAgent llm s).result
      = Except.error "Branch condition returned unknown or null destination"
    ∧ (runAgent llm s).calls = []
    ∧ (runAgent llm s).visited = pipeNodes
    ∧ Field.context_text ∈ (runAgent llm s).writes := by
  rw [runAgent_invalid_eq llm s h1 h2 h3]
  refine ⟨rfl, rfl, rfl, ?_⟩
  show Field.context_text ∈ stageWrites s
  unfold stageWrites
  rw [bc_writes]
  simp

def sUnknown : AgentState := { baseState with mode := "unknown" }

theorem invalid_mode_rejection_witness :
    ((runAgent llm0 sUnknown).result
      = Except.error "Branch condition returned unknown or null destination"
    ∧ (runAgent llm0 sUnknown).calls = []
    ∧ (runAgent llm0 sUnknown).visited = pipeNodes
    ∧ Field.context_text ∈ (runAgent llm0 sUnknown).writes) :=
  invalid_mode_rejection llm0 sUnknown (by decide) (by decide) (by decide)

set_option maxRecDepth 40000 in
/-- **C4, counterexample.** A concrete request with mode "unknown" is indeed
rejected with no model call, but its run has already performed a formatting
side effect: the derived field context_text was populated — refuting the
claim that rejection happens before any formatting side effect is
observable. -/
theorem unknown_mode_formats_before_reject :
    (runAgent llm0 sUnknown).result
      = Except.error "Branch condition returned unknown or null destination"
    ∧ Field.context_text ∈ (runAgent llm0 sUnknown).writes
    ∧ (runAgent llm0 sUnknown).calls = [] := by
  refine ⟨rfl, by decide, rfl⟩

def sEmptyChartOv : AgentState :=
  { baseState with mode := "overview", chart := [], news := [], docs := [] }

/-- **C6 (amended).** On an empty chart the compression stage completes
without error but performs no assignment at all — chart_text is left unset
rather than set to an empty rendering — and an overview-mode request with an
empty chart then fails inside the overview generator (with a KeyError on the
missing chart_text, before any model call); the HTTP endpoint, not the
pipeline, supplies the fallback summary. -/
theorem empty_chart_no_render (llm : LLM) (s : AgentState) (hc : s.chart = []) :
    chart_compression s = ⟨s, [], []⟩
    ∧ (s.mode = "overview" → s.chart_text = none →
        (runAgent llm s).result = Except.error "KeyError: chart_text"
        ∧ (runAgent llm s).calls = []) := by
  constructor
  · unfold chart_compression
    simp [hc]
  · intro hm hct
    have hfmt : (formattedState s).chart_text = none := by
      rw [formattedState_chartText]
      simp [hc, hct]
    rw [runAgent_overview_eq llm s hm, overview_none llm _ hfmt]
    exact ⟨rfl, rfl⟩

theorem empty_chart_no_render_witness :
    (chart_compression sEmptyChartOv = ⟨sEmptyChartOv, [], []⟩
    ∧ ((runAgent llm0 sEmptyChartOv).result = Except.error "KeyError: chart_text"
        ∧ (runAgent llm0 sEmptyChartOv).calls = [])) :=
  ⟨(empty_chart_no_render llm0 sEmptyChartOv rfl).1,
   (empty_chart_no_render llm0 sEmptyChartOv rfl).2 rfl rfl⟩

set_option maxRecDepth 40000 in
/-- **C6, counterexample.** A concrete overview-mode request with an empty
chart: the run raises (KeyError on chart_text) before any model call, and no
write to chart_text ever happens — refuting both that an empty rendering is
produced in chart_text and that the condition is non-fatal to the pipeline. -/
theorem empty_chart_overview_fatal :
    (runAgent llm0 sEmptyChartOv).result = Except.error "KeyError: chart_text"
    ∧ Field.chart_text ∉ (runAgent llm0 sEmptyChartOv).writes
    ∧ (runAgent llm0 sEmptyChartOv).calls = [] := by
  refine ⟨rfl, by decide, rfl⟩

theorem overview_ok_inv (llm : LLM) (s : AgentState) (o : NodeOut)
    (h : overview llm s = Except.ok o) :
    o.writes = [Field.answer] ∧ o.state.mode = s.mode ∧ o.state.chart = s.chart
    ∧ o.state.news = s.news ∧ o.state.docs = s.docs := by
  unfold overview at h
  cases hct : s.chart_text with
  | none => rw [hct] at h; simp at h
  | some ct =>
    rw [hct] at h
    simp only [Except.ok.injEq] at h
    rw [← h]
    simp

theorem ask_AI_ok_inv (llm : LLM) (s : AgentState) (o : NodeOut)
    (h : ask_AI llm s = Except.ok o) :
    o.writes = [Field.answer] ∧ o.state.mode = s.mode ∧ o.state.chart = s.chart
    ∧ o.state.news = s.news ∧ o.state.docs = s.docs := by
  rw [ask_AI_eq] at h
  simp only [Except.ok.injEq] at h
  rw [← h]
  simp

theorem history_ok_inv (llm : LLM) (s : AgentState) (o : NodeOut)
    (h : history llm s = Except.ok o) :
    o.writes = [Field.answer] ∧ o.state.mode = s.mode ∧ o.state.chart = s.chart
    ∧ o.state.news = s.news ∧ o.state.docs = s.docs := by
  unfold history at h
  cases hct : s.context_text with
  | none => rw [hct] at h; simp at h
  | some cx =>
    rw [hct] at h
    simp only [Except.ok.injEq] at h
    rw [← h]
    simp

theorem stageWrites_eq (s : AgentState) :
    stageWrites s = (if s.chart = [] then [] else [Field.chart_text])
      ++ (if s.news = [] then [] else [Field.news_text]) ++ [Field.context_text] := by
  unfold stageWrites
  rw [cc_writes, fn_writes, bc_writes, cc_news]

theorem count_stageWrites_le (s : AgentState) (f : Field) :
    (stageWrites s).count f ≤ 1 := by
  rw [stageWrites_eq]
  split_ifs <;> cases f <;> decide

/-- **C1.** Per request, the overview generator performs exactly one LLM call
while ask_AI and history perform exactly two, draft then verify; the verify
prompt is a function of nothing but the draft call's completion and the very
grounding inputs of the draft call (symbol, indicators, news text for ask_AI;
symbol and context text for history). -/
theorem generator_call_discipline (llm : LLM) (s : AgentState) :
    (s.mode = "overview" → s.chart ≠ [] → (runAgent llm s).calls.length = 1)
    ∧ (s.mode = "ask_AI" → ∃ nt dt,
        (runAgent llm s).calls =
          [⟨analystSystem, askDraftPrompt s.symbol s.indicators nt s.question⟩,
           ⟨askVerifySystem, askVerifyPrompt s.symbol s.indicators nt dt⟩]
        ∧ dt = (llm analystSystem (askDraftPrompt s.symbol s.indicators nt s.question)).trim)
    ∧ (s.mode = "history" → ∃ cx dt,
        (runAgent llm s).calls =
          [⟨historyDraftSystem, historyDraftPrompt s.symbol cx⟩,
           ⟨historyVerifySystem, historyVerifyPrompt s.symbol cx dt⟩]
        ∧ dt = (llm historyDraftSystem (historyDraftPrompt s.symbol cx)).trim) := by
  refine ⟨fun h hc => ?_, fun h => ?_, fun h => ?_⟩
  · have hct : (formattedState s).chart_text
        = some (String.join ((if 20 < s.chart.length then
            sliceEvery ((s.chart.length + 19) / 20) s.chart else s.chart).map chartLine)) := by
      rw [formattedState_chartText]
      simp [hc]
    rw [runAgent_overview_eq llm s h, overview_some llm _ _ hct]
    rfl
  · refine ⟨(formattedState s).news_text.getD noNewsFallback,
      (llm analystSystem (askDraftPrompt s.symbol s.indicators
        ((formattedState s).news_text.getD noNewsFallback) s.question)).trim, ?_, rfl⟩
    rw [runAgent_ask_eq llm s h, ask_AI_eq llm (formattedState s)]
    simp only [formattedState_symbol, formattedState_ind, formattedState_q]
  · obtain ⟨cx, hct⟩ : ∃ cx, (formattedState s).context_text = some cx :=
      ⟨_, formattedState_ctxText s⟩
    refine ⟨cx, (llm historyDraftSystem (historyDraftPrompt s.symbol cx)).trim, ?_, rfl⟩
    rw [runAgent_history_eq llm s h, history_some llm _ _ hct]
    simp only [formattedState_symbol]

theorem generator_call_discipline_witness :
    ((runAgent llm0 sOv).calls.length = 1)
    ∧ (∃ nt dt,
        (runAgent llm0 sAsk).calls =
          [⟨analystSystem, askDraftPrompt sAsk.symbol sAsk.indicators nt sAsk.question⟩,
           ⟨askVerifySystem, askVerifyPrompt sAsk.symbol sAsk.indicators nt dt⟩]
        ∧ dt = (llm0 analystSystem
            (askDraftPrompt sAsk.symbol sAsk.indicators nt sAsk.question)).trim)
    ∧ (∃ cx dt,
        (runAgent llm0 sHist).calls =
          [⟨historyDraftSystem, historyDraftPrompt sHist.symbol cx⟩,
           ⟨historyVerifySystem, historyVerifyPrompt sHist.symbol cx dt⟩]
        ∧ dt = (llm0 historyDraftSystem (historyDraftPrompt sHist.symbol cx)).trim) :=
  ⟨(generator_call_discipline llm0 sOv).1 rfl (by decide),
   (generator_call_discipline llm0 sAsk).2.1 rfl,
   (generator_call_discipline llm0 sHist).2.2 rfl⟩

def sAskNoNews : AgentState := { baseState with mode := "ask_AI", news := [] }

/-- **C10.** With an empty news list the formatting stage leaves the state
untouched (news_text stays unset), and the ask_AI generator then substitutes
the fixed sentence noNewsFallback for the news section of both the draft and
the verify prompt. -/
theorem empty_news_fallback_prompts (llm : LLM) (s : AgentState)
    (hn : s.news = []) (hnt : s.news_text = none) :
    (fetch_news s).state = s
    ∧ (fetch_news s).writes = []
    ∧ (s.mode = "ask_AI" → (runAgent llm s).calls =
        [⟨analystSystem, askDraftPrompt s.symbol s.indicators noNewsFallback s.question⟩,
         ⟨askVerifySystem, askVerifyPrompt s.symbol s.indicators noNewsFallback
            ((llm analystSystem
              (askDraftPrompt s.symbol s.indicators noNewsFallback s.question)).trim)⟩]) := by
  refine ⟨by unfold fetch_news; simp [hn], by rw [fn_writes]; simp [hn], fun hm => ?_⟩
  have hfmt : (formattedState s).news_text = none := by
    rw [formattedState_newsText]
    simp [hn, hnt]
  rw [runAgent_ask_eq llm s hm, ask_AI_eq llm (formattedState s)]
  simp only [hfmt, formattedState_symbol, formattedState_ind, formattedState_q,
    Option.getD_none]

theorem empty_news_fallback_prompts_witness :
    ((fetch_news sAskNoNews).state = sAskNoNews
    ∧ (fetch_news sAskNoNews).writes = []
    ∧ (runAgent llm0 sAskNoNews).calls =
        [⟨analystSystem, askDraftPrompt sAskNoNews.symbol sAskNoNews.indicators
            noNewsFallback sAskNoNews.question⟩,
         ⟨askVerifySystem, askVerifyPrompt sAskNoNews.symbol sAskNoNews.indicators
            noNewsFallback
            ((llm0 analystSystem (askDraftPrompt sAskNoNews.symbol sAskNoNews.indicators
              noNewsFallback sAskNoNews.question)).trim)⟩]) :=
  ⟨(empty_news_fallback_prompts llm0 sAskNoNews rfl rfl).1,
   (empty_news_fallback_prompts llm0 sAskNoNews rfl rfl).2.1,
   (empty_news_fallback_prompts llm0 sAskNoNews rfl rfl).2.2 rfl⟩

/-- **C9.** Along any run, each derived text field is written at most once,
and a successful run preserves the mode and returns the input collections
chart, news and docs unchanged (the formatting nodes copy, never mutate). -/
theorem pipeline_frame_and_write_once (llm : LLM) (s : AgentState) :
    ((runAgent llm s).writes.count Field.chart_text ≤ 1
      ∧ (runAgent llm s).writes.count Field.news_text ≤ 1
      ∧ (runAgent llm s).writes.count Field.context_text ≤ 1)
    ∧ (∀ r, (runAgent llm s).result = Except.ok r →
        r.mode = s.mode ∧ r.chart = s.chart ∧ r.news = s.news ∧ r.docs = s.docs) := by
  by_cases h1 : s.mode = "overview"
  · rw [runAgent_overview_eq llm s h1]
    cases hov : overview llm (formattedState s) with
    | error e =>
      refine ⟨⟨count_stageWrites_le s _, count_stageWrites_le s _, count_stageWrites_le s _⟩,
        fun r hr => by simp at hr⟩
    | ok o4 =>
      obtain ⟨hw, hm, hc, hn, hd⟩ := overview_ok_inv llm _ o4 hov
      refine ⟨⟨?_, ?_, ?_⟩, fun r hr => ?_⟩
      · simp only [List.count_append, hw]
        have := count_stageWrites_le s Field.chart_text
        have h0 : ([Field.answer].count Field.chart_text) = 0 := by decide
        omega
      · simp only [List.count_append, hw]
        have := count_stageWrites_le s Field.news_text
        have h0 : ([Field.answer].count Field.news_text) = 0 := by decide
        omega
      · simp only [List.count_append, hw]
        have := count_stageWrites_le s Field.context_text
        have h0 : ([Field.answer].count Field.context_text) = 0 := by decide
        omega
      · simp only [Except.ok.injEq] at hr
        rw [← hr]
        refine ⟨?_, ?_, ?_, ?_⟩ <;> simp [hm, hc, hn, hd]
  · by_cases h2 : s.mode = "ask_AI"
    · rw [runAgent_ask_eq llm s h2]
      cases hask : ask_AI llm (formattedState s) with
      | error e =>
        refine ⟨⟨count_stageWrites_le s _, count_stageWrites_le s _, count_stageWrites_le s _⟩,
          fun r hr => by simp at hr⟩
      | ok o4 =>
        obtain ⟨hw, hm, hc, hn, hd⟩ := ask_AI_ok_inv llm _ o4 hask
        refine ⟨⟨?_, ?_, ?_⟩, fun r hr => ?_⟩
        · simp only [List.count_append, hw]
          have := count_stageWrites_le s Field.chart_text
          have h0 : ([Field.answer].count Field.chart_text) = 0 := by decide
          omega
        · simp only [List.count_append, hw]
          have := count_stageWrites_le s Field.news_text
          have h0 : ([Field.answer].count Field.news_text) = 0 := by decide
          omega
        · simp only [List.count_append, hw]
          have := count_stageWrites_le s Field.context_text
          have h0 : ([Field.answer].count Field.context_text) = 0 := by decide
          omega
        · simp only [Except.ok.injEq] at hr
          rw [← hr]
          refine ⟨?_, ?_, ?_, ?_⟩ <;> simp [hm, hc, hn, hd]
    · by_cases h3 : s.mode = "history"
      · rw [runAgent_history_eq llm s h3]
        cases hh : history llm (formattedState s) with
        | error e =>
          refine ⟨⟨count_stageWrites_le s _, count_stageWrites_le s _, count_stageWrites_le s _⟩,
            fun r hr => by simp at hr⟩
        | ok o4 =>
          obtain ⟨hw, hm, hc, hn, hd⟩ := history_ok_inv llm _ o4 hh
          refine ⟨⟨?_, ?_, ?_⟩, fun r hr => ?_⟩
          · simp only [List.count_append, hw]
            have := count_stageWrites_le s Field.chart_text
            have h0 : ([Field.answer].count Field.chart_text) = 0 := by decide
            omega
          · simp only [List.count_append, hw]
            have := count_stageWrites_le s Field.news_text
            have h0 : ([Field.answer].count Field.news_text) = 0 := by decide
            omega
          · simp only [List.count_append, hw]
            have := count_stageWrites_le s Field.context_text
            have h0 : ([Field.answer].count Field.context_text) = 0 := by decide
            omega
          · simp only [Except.ok.injEq] at hr
            rw [← hr]
            refine ⟨?_, ?_, ?_, ?_⟩ <;> simp [hm, hc, hn, hd]
      · rw [runAgent_invalid_eq llm s h1 h2 h3]
        refine ⟨⟨count_stageWrites_le s _, count_stageWrites_le s _, count_stageWrites_le s _⟩,
          fun r hr => by simp at hr⟩

/-- The final state of a concrete successful run, used by the C9 witness. -/
def finalHist : AgentState :=
  match (runAgent llm0 sHist).result with
  | Except.ok r => r
  | Except.error _ => sHist

theorem pipeline_frame_and_write_once_witness :
    (((runAgent llm0 sHist).writes.count Field.chart_text ≤ 1
      ∧ (runAgent llm0 sHist).writes.count Field.news_text ≤ 1
      ∧ (runAgent llm0 sHist).writes.count Field.context_text ≤ 1)
    ∧ (finalHist.mode = sHist.mode ∧ finalHist.chart = sHist.chart
        ∧ finalHist.news = sHist.news ∧ finalHist.docs = sHist.docs)) :=
  ⟨(pipeline_frame_and_write_once llm0 sHist).1,
   (pipeline_frame_and_write_once llm0 sHist).2 finalHist rfl⟩

/-- **C8 (amended).** When the graph/LLM invocation raises, each endpoint
still returns a response whose narrative is the deterministic, model-free
fallback template of that endpoint: dates, symbol and numeric indicators for
get_summary and get_qa, the symbol alone for get_history. -/
theorem endpoint_generation_fallbacks (symbol start_date end_date e : String)
    (m : MarketResult) (newsRes : Except String (List NewsItem))
    (market2 : Except String MarketResult) (docsRes : Except String (List Doc)) :
    (∃ resp, get_summary symbol start_date end_date (Except.ok m) newsRes (Except.error e)
        = Except.ok resp
      ∧ resp.summary = summaryFallback start_date end_date symbol m.indicators)
    ∧ (∃ resp, get_qa symbol start_date end_date (Except.ok m) newsRes (Except.error e)
        = Except.ok resp
      ∧ resp.answer = qaFallback start_date end_date symbol m.indicators)
    ∧ (get_history symbol market2 docsRes (Except.error e)).history_story
        = historyFallback symbol :=
  ⟨⟨_, rfl, rfl⟩, ⟨_, rfl, rfl⟩, rfl⟩

def mkt0 : MarketResult := ⟨chart0, ind0⟩

/-- **C8, counterexample.** Two history requests with identical numeric
indicators and a failing generation step receive different fallback
narratives (the template uses the symbol), so the fallback narrative is not
built purely from the numeric indicators. -/
theorem history_fallback_not_from_indicators :
    (get_history "BTC" (Except.ok mkt0) (Except.ok []) (Except.error "LLM down")).history_story
    ≠ (get_history "ETH" (Except.ok mkt0) (Except.ok []) (Except.error "LLM down")).history_story := by
  decide

end CryptoDash
